import Mathlib

/-!
Verification of the clinical classification and report-text generation engine
of the `cll_genie` application (`cll_genie/blueprints/main/reports.py` and
`cll_genie/blueprints/main/vquest.py`), shallowly embedded in Lean 4.

Python floats are modelled as rationals (`ℚ`); the Python call
`round(x, 2)` is modelled by `round2` below; dictionaries keyed by sequence
id are modelled as association lists; a Python function that can raise an
uncaught exception is modelled with `Except Unit`, a function that can
return `None` with `Option`.
-/

set_option maxRecDepth 100000

namespace CllGenie

/-- Per-sequence mutation status, the three string values produced by
`ReportController.get_mutation_status_per_seq` (reports.py lines 281-296). -/
inductive MutationStatus where
  | MCLL
  | UCLL
  | Borderline
  deriving DecidableEq, Repr

/-- The four cohort outcomes of the branch cascade in
`ReportController.get_hypermutation_string` (reports.py lines 309-344). -/
inductive CohortClassification where
  | allUnmutated
  | allHypermutated
  | allBorderline
  | mixed
  deriving DecidableEq, Repr

/-- One per-sequence record as used by the report engine: the `"Inframe"` and
`"Stop Codon"` flags and the `"CLL subset"` label of the `summary` sub-dict,
plus the `"V-REGION identity %"` value. -/
structure SeqRecord where
  inframe : Bool
  stopCodon : Bool
  vIdentity : ℚ
  subset : Option String
  deriving DecidableEq, Repr

/-- The per-sequence results dictionary (`vquest_results`): sequence id
mapped to its record, in insertion order. -/
abbrev Results := List (String × SeqRecord)

/-- Computes the number of hundredths of q after rounding q to two decimal
places with halves up: the floor of 100 q + 1/2, computed by integer floor
division as (200 num + den) fdiv (2 den). -/
def roundTimes100 (q : ℚ) : ℤ :=
  (200 * q.num + (q.den : ℤ)).fdiv (2 * (q.den : ℤ))

/-- Models the Python call `round(x, 2)`: round to two decimal places.
Python rounds half-to-even on binary floats; over `ℚ` we round halves up,
which agrees except exactly at `.xx5` midpoints, values that do not arise
in any theorem below. -/
def round2 (v : ℚ) : ℚ := Rat.divInt (roundTimes100 v) 100

/-- The comparison cascade of `ReportController.get_mutation_status_per_seq`
(reports.py lines 283-294), applied to one already-rounded identity value:
`v < lower → "M-CLL"`, `v > upper → "U-CLL"`, otherwise `"Borderline"`. -/
def classify (v lower upper : ℚ) : MutationStatus :=
  if v < lower then .MCLL
  else if upper < v then .UCLL
  else .Borderline

/-- `ReportController.get_mutation_status_per_seq` (reports.py lines 271-296):
round each sequence's `"V-REGION identity %"` to two decimals, then apply the
threshold cascade. Input is the flattened summary dict restricted to
(sequence id, raw identity). -/
def get_mutation_status_per_seq (results : List (String × ℚ)) (lower upper : ℚ) :
    List (String × MutationStatus) :=
  results.map fun p => (p.1, classify (round2 p.2) lower upper)

/-- The condition cascade of `ReportController.get_hypermutation_string`
(reports.py lines 309-344) on the list of already-rounded identity values:
all strictly above the upper cutoff, else all strictly below the lower
cutoff, else all within the closed borderline band, else mixed. -/
def hypermutation_classification (vs : List ℚ) (lower upper : ℚ) :
    CohortClassification :=
  if vs.all fun v => decide (upper < v) then .allUnmutated
  else if vs.all fun v => decide (v < lower) then .allHypermutated
  else if vs.all fun v => decide (lower ≤ v ∧ v ≤ upper) then .allBorderline
  else .mixed

/-- The cohort classification computed by
`ReportController.get_hypermutation_string` (reports.py lines 298-346): the
raw `"V-REGION identity %"` of each record is first rounded to two decimals
(line 304), then the cascade runs on the rounded values. -/
def get_hypermutation_status (rs : Results) (lower upper : ℚ) :
    CohortClassification :=
  hypermutation_classification (rs.map fun p => round2 p.2.vIdentity) lower upper

/-- `ReportController.get_not_inframe_status` (reports.py lines 184-191):
starts `True`, the loop sets `False` and breaks at the first record whose
`"Inframe"` flag is falsy. -/
def get_not_inframe_status : Results → Bool
  | [] => true
  | r :: rest =>
    if !r.2.inframe then false else get_not_inframe_status rest

/-- `ReportController.get_stop_codon_status` (reports.py lines 193-200):
starts `False`, the loop sets `True` and breaks at the first record whose
`"Stop Codon"` flag is truthy. -/
def get_stop_codon_status : Results → Bool
  | [] => false
  | r :: rest =>
    if r.2.stopCodon then true else get_stop_codon_status rest

/-- The class attribute `ReportController.swedish_number_string`
(reports.py lines 18-30): Swedish number words for 1..10, with an empty
word at index 0. -/
def swedish_number_string : List String :=
  ["", "ett", "två", "tre", "fyra", "fem", "sex", "sju", "åtta", "nio", "tio"]

/-- Decides whether `pat` occurs as a contiguous sublist of the second
argument; models the Python substring test `pat in s` on character lists. -/
def listContainsSub (pat : List Char) : List Char → Bool
  | [] => pat.isPrefixOf ([] : List Char)
  | c :: cs => pat.isPrefixOf (c :: cs) || listContainsSub pat cs

/-- Models the Python substring test `pat in s` on strings. -/
def strContainsSub (s pat : String) : Bool :=
  listContainsSub pat.data s.data

/-- Renders a two-decimal rational the way the Python builtin `str` renders
the corresponding rounded float in the report f-strings (reports.py line
307): integer part, a dot, then one or two fractional digits with no
trailing zero beyond the first. -/
def floatStr (q : ℚ) : String :=
  let n : ℤ := roundTimes100 q
  let ip := n / 100
  let fp := (n % 100).toNat
  if fp % 10 = 0 then toString ip ++ "." ++ toString (fp / 10)
  else if fp < 10 then toString ip ++ ".0" ++ toString fp
  else toString ip ++ "." ++ toString fp

/-- The `v_identity_string` of `ReportController.get_hypermutation_string`
(reports.py line 307): the rounded identities joined by a percent sign and
a comma. -/
def v_identity_string (v_identity : List ℚ) : String :=
  String.intercalate ("%, ") (v_identity.map floatStr)

/-- `ReportController.get_hypermutation_string` (reports.py lines 298-346):
the cohort-classification cascade on the rounded identities crossed with the
sequence count picks one Swedish wording; a count above ten hits the
out-of-range index of `swedish_number_string` (modelled as `Except.error`);
a count of zero or a single mixed sequence leaves the empty string. -/
def get_hypermutation_string (rs : Results) (lower upper : ℚ) :
    Except Unit String :=
  let seq_count := rs.length
  let v_identity := rs.map fun p => round2 p.2.vIdentity
  let vs := v_identity_string v_identity
  match hypermutation_classification v_identity lower upper with
  | .allUnmutated =>
    if seq_count = 1 then
      .ok ("Analysen påvisar ingen somatisk hypermutation (U-CLL) (" ++ vs ++
        "% identitet mot IGHV-genen).")
    else if 1 < seq_count then
      match swedish_number_string.get? seq_count with
      | some w => .ok ("Analysen av de " ++ w ++
          " produktiva IGH-gensekvenserna påvisar samstämmig avsaknad av somatisk hypermutation (U-CLL) ("
          ++ vs ++ "% identitet mot IGHV-genen).")
      | none => .error ()
    else .ok ("")
  | .allHypermutated =>
    if seq_count = 1 then
      .ok ("Analysen påvisar somatisk hypermutation (M-CLL) (" ++ vs ++
        "% identitet mot IGHV-genen)")
    else if 1 < seq_count then
      match swedish_number_string.get? seq_count with
      | some w => .ok ("Analysen av de " ++ w ++
          " produktiva IGH-gensekvenserna påvisar samstämmig förekomst av somatisk hypermutation (M-CLL) ("
          ++ vs ++ "% identitet mot IGHV-genen).")
      | none => .error ()
    else .ok ("")
  | .allBorderline =>
    if seq_count = 1 then
      .ok ("Analysen påvisar ett borderline-resultat (" ++ vs ++
        "% identitet mot IGHV-genen).")
    else if 1 < seq_count then
      match swedish_number_string.get? seq_count with
      | some w => .ok ("Analysen av de " ++ w ++
          " produktiva IGHV-gensekvenserna påvisar ett borderline-resultat ("
          ++ vs ++ "% identitet mot IGHV-genen).")
      | none => .error ()
    else .ok ("")
  | .mixed =>
    if 1 < seq_count then
      match swedish_number_string.get? seq_count with
      | some w => .ok ("Analysen av de " ++ w ++
          " produktiva IGHV-sekvenserna påvisar ett icke-konklusivt resultat av somatisk hypermutation ("
          ++ vs ++
          "% repektive identitet mot IGHV-genen). Det är således inte möjligt att säkerställa mutationsstatus för aktuellt prov. Vi rekommenderar därför att ett nytt blodprov skickas för en utökad analys på RNA-nivå för identifiering av ett klonalt och funktionellt (produktivt) IGHV-D-J rearrangemang där IGHV-mutationsanalys och subset-analys kan utföras. (Provet skickas till Sahlgrenska sjukhuset (Göteborg) för analys av RNA.)")
      | none => .error ()
    else .ok ("")

/-- `ReportController.get_subset_string` (reports.py lines 348-376): the
distinct non-null subset labels of the cohort select the message and the
resolved label. Null labels are filtered out before deduplication, so the
source guard testing the single element against null is vacuous. -/
def get_subset_string (rs : Results) : String × Option String :=
  let subset_ids := (rs.filterMap fun p => p.2.subset).dedup
  match subset_ids with
  | [x] => ("Vidare påvisas subsettillhörighet till subset " ++ x, some x)
  | [] => ("Analysen påvisar ingen subsettillhörighet.", none)
  | _ => ("Dessutom visar delmängdsanalysen motsägelsefullt delmängdsmedlemskap med avseende på delmängd #2 eller #8 i det aktuella urvalet. Någon avgörande delmängdstilldelning kan därför inte göras.",
      none)

/-- The fixed boilerplate paragraph always prepended first
(reports.py line 227). -/
def common_comment : String :=
  "DNA har extraherats från insänt prov och analyserats med massiv parallell sekvensering (MPS, även kallat NGS). Analysen omfattar detektion av klonalt IGHV-D-J genrearrangemang, IGHV-mutationsstatus (muterad, M-CLL eller icke muterad, U-CLL), samt subsettillhörighet (subset #2 eller #8). \n\n"

/-- The near-duplicate boilerplate appended when the submitted count is zero
(reports.py line 230). -/
def zero_count_comment : String :=
  "DNA har extraherats från insänt prov och analyserats med massiv parallell sekvensering (MPS, även kallat NGS). Analysen omfattar detektion av klonalt IGHV-D-J rearrangemang, IGHV-mutationsstatus (muterad, M-CLL eller icke muterad, U-CLL), samt subsettillhörighet (subset #2 eller #8). \n\n"

/-- Paragraph for one clonal sequence without a functional rearrangement
(reports.py line 233). -/
def single_nonfunctional_comment : String :=
  "Vid analysen finner man en klonal sekvens, men då sekvensen saknar ett funktionellt (produktivt) IGHV-D-J rearrangemang kan IGHV-mutationsstatus inte fastställas. Vi rekommenderar därför att ett nytt blodprov skickas för en utökad analys på RNA-nivå för identifiering av ett klonalt och funktionellt IGHV-D-J rearrangemang där IGHV-mutationsanalys och subset-analys kan utföras. (Provet/RNA skickas till Salgrenska sjukhuset (Göteborg) för analys av RNA). \n\n"

/-- Paragraph for one clonal sequence with a functional rearrangement
(reports.py line 235). -/
def single_functional_comment : String :=
  "Vid analysen finner man en klonal sekvens med ett funktionellt (produktivt) IGHV-D-J rearrangemang (se tabell seq1).\n\n"

/-- The `table_string` of reports.py lines 237-239: the labels Seq1..SeqN
joined by commas. -/
def table_string (n : ℕ) : String :=
  String.intercalate (", ") ((List.range' 1 n).map fun x => "Seq" ++ toString x)

/-- Paragraph for several clonal sequences (reports.py line 240), given the
Swedish number word for the count. -/
def multi_seq_comment (w : String) (n : ℕ) : String :=
  "Vid analysen finner man " ++ w ++
    " klonala sekvenser och har funktionella (produktiva) IGHV-D-J rearrangemang. (se tabeller; "
    ++ table_string n ++ ") \n\n"

/-- Clinical-guidance sentence appended when the text so far mentions
"(U-CLL)" or "(M-CLL)" (reports.py line 257). -/
def clinical_mutation_comment : String :=
  "IGHV-mutationsstatus, i detta fall [M-CLL/U-CLL], är en prognostisk (riskstratifierande) markör samt vägleder behandlingsval för KLL (Nationellt Vårdprogram 2024, ERIC Guidelines 2022). \n\n"

/-- Clinical-guidance sentence appended when the text so far mentions
"borderline" (reports.py line 259). -/
def clinical_borderline_comment : String :=
  "5)\tIGHV-mutationsstatus med borderlinetillhörighet bör beaktas med försiktighet (ERIC Guidelines 2022). \n\n"

/-- Prognostic sentence for subset #2 (reports.py line 263). -/
def subset2_comment : String :=
  "Subset #2 utgör en prognostisk markör som är oberoende av mutationsstatus (Nationellt Vårdprogram 2024, ERIC Guidelines 2022). \n\n"

/-- Prognostic sentence for subset #8 (reports.py line 265). -/
def subset8_comment : String :=
  "Subset #8 är en prognostisk markör och har beskrivits vara associerad med en ökad risk att utveckla Richtertransformation (Nationellt Vårdprogram 2024, ERIC Guidelines 2022). \n\n"

/-- The count-dependent rearrangement paragraph of
`ReportController.generate_report_summary_text` (reports.py lines 229-240):
zero, one (split on functionality), or several submitted sequences; a count
above ten hits the out-of-range index of `swedish_number_string`, an
uncaught Python `IndexError` modelled as `Except.error`. -/
def count_paragraph (n : ℕ) (is_inframe has_stop_codon : Bool) :
    Except Unit String :=
  if n = 0 then .ok zero_count_comment
  else if n = 1 then
    if !is_inframe || has_stop_codon then .ok single_nonfunctional_comment
    else .ok single_functional_comment
  else
    match swedish_number_string.get? n with
    | some w => .ok (multi_seq_comment w n)
    | none => .error ()

/-- The step-4 block of `ReportController.generate_report_summary_text`
(reports.py lines 242-265), appended to the text `s2` built so far: the
hypermutation paragraph, the subset paragraph, the clinical-guidance
sentence gated on substring presence in the accumulated text, and the
subset-specific prognostic sentence. -/
def step4_append (s2 : String) (rs : Results) (lower upper : ℚ) :
    Except Unit String :=
  match get_hypermutation_string rs lower upper with
  | .error e => .error e
  | .ok hyper =>
    let s := s2 ++ hyper ++ "\n\n"
    let sub := get_subset_string rs
    let s := s ++ sub.1 ++ "\n\n"
    let s :=
      if strContainsSub s ("(U-CLL)") || strContainsSub s ("(M-CLL)") then
        s ++ clinical_mutation_comment
      else if strContainsSub s ("borderline") then
        s ++ clinical_borderline_comment
      else s
    let s :=
      if sub.2 = some ("#2") then s ++ subset2_comment
      else if sub.2 = some ("#8") then s ++ subset8_comment
      else s
    .ok s

/-- The data `ReportController.generate_report_summary_text` reads from the
database inside its try-block (reports.py lines 207-217): the per-submission
`vquest_results` dictionary and the parsed parameter
"Number of submitted sequences". `none` models the exception path
(reports.py lines 218-222), which zeroes everything and ends in a null
summary. -/
structure SubmissionData where
  results : Option Results
  numSubmitted : Option ℕ
  deriving Repr

/-- `ReportController.generate_report_summary_text` (reports.py lines
202-269). `Except.ok none` models a Python `None` return (extraction failed,
or a falsy empty results dictionary); `Except.error ()` models the uncaught
`IndexError` of an out-of-range sequence count. The step-4 block is gated
only on the in-frame and stop-codon flags, not on the submitted count. -/
def generate_report_summary_text (d : SubmissionData) (lower upper : ℚ) :
    Except Unit (Option String) :=
  match d.results, d.numSubmitted with
  | some rs, some n =>
    if rs.isEmpty then .ok none
    else
      let is_inframe := get_not_inframe_status rs
      let has_stop_codon := get_stop_codon_status rs
      match count_paragraph n is_inframe has_stop_codon with
      | .error e => .error e
      | .ok para =>
        let s2 := common_comment ++ para
        if is_inframe && !has_stop_codon then
          match step4_append s2 rs lower upper with
          | .error e => .error e
          | .ok s => .ok (some s)
        else .ok (some s2)
  | _, _ => .ok none

/-- `VQuest.create_dict_for_mongo` (vquest.py lines 276-298): pair every
summary row with the junction row of the same sequence id; the parameter
dictionary rides along unchanged. A summary id absent from the junction
dictionary raises an uncaught Python `KeyError`, modelled as `none`, so no
partial merged document is ever produced. -/
def merge_rows {α β : Type} (j_dict : List (String × β)) :
    List (String × α) → Option (List (String × α × β))
  | [] => some []
  | q :: rest =>
    match j_dict.lookup q.1, merge_rows j_dict rest with
    | some jr, some l => some ((q.1, q.2, jr) :: l)
    | _, _ => none

/-- `VQuest.create_dict_for_mongo` (vquest.py lines 276-298): pair every
summary row with the junction row of the same sequence id via `merge_rows`;
the parameter dictionary rides along unchanged. -/
def create_dict_for_mongo {π α β : Type} (p_dict : π)
    (s_dict : List (String × α)) (j_dict : List (String × β)) :
    Option (π × List (String × α × β)) :=
  (merge_rows j_dict s_dict).map fun merged => (p_dict, merged)

section Lemmas

/-- Bridge from the loop of `get_not_inframe_status` to a universal
statement. -/
lemma not_inframe_status_iff (rs : Results) :
    get_not_inframe_status rs = true ↔ ∀ p ∈ rs, p.2.inframe = true := by
  induction rs with
  | nil => simp [get_not_inframe_status]
  | cons r rest ih =>
    simp only [get_not_inframe_status, List.mem_cons]
    cases h : r.2.inframe with
    | false => simp [h]
    | true =>
      simp only [h, Bool.not_true, Bool.false_eq_true, if_false, ih]
      constructor
      · intro hall p hp
        rcases hp with hp | hp
        · subst hp; exact h
        · exact hall p hp
      · intro hall p hp
        exact hall p (Or.inr hp)

/-- Bridge from the loop of `get_stop_codon_status` to an existential
statement. -/
lemma stop_codon_status_iff (rs : Results) :
    get_stop_codon_status rs = true ↔ ∃ p ∈ rs, p.2.stopCodon = true := by
  induction rs with
  | nil => simp [get_stop_codon_status]
  | cons r rest ih =>
    simp only [get_stop_codon_status, List.mem_cons]
    cases h : r.2.stopCodon with
    | true =>
      simp only [h, if_true]
      exact ⟨fun _ => ⟨r, Or.inl rfl, h⟩, fun _ => by trivial⟩
    | false =>
      simp only [h, Bool.false_eq_true, if_false, ih]
      constructor
      · rintro ⟨p, hp, hs⟩
        exact ⟨p, Or.inr hp, hs⟩
      · rintro ⟨p, hp | hp, hs⟩
        · subst hp; simp [h] at hs
        · exact ⟨p, hp, hs⟩

end Lemmas

/-- C1: for every identity value and cutoffs with lower ≤ upper, the
per-sequence threshold cascade yields exactly one of M-CLL, U-CLL and
Borderline — M-CLL exactly when the value is strictly below the lower
cutoff, U-CLL exactly when strictly above the upper cutoff, Borderline
otherwise — and a value equal to either cutoff classifies as Borderline. -/
theorem classify_total_and_boundary (v lower upper : ℚ) (hle : lower ≤ upper) :
    (classify v lower upper = .MCLL ∨ classify v lower upper = .UCLL ∨
      classify v lower upper = .Borderline) ∧
    (classify v lower upper = .MCLL ↔ v < lower) ∧
    (classify v lower upper = .UCLL ↔ upper < v) ∧
    (classify v lower upper = .Borderline ↔ lower ≤ v ∧ v ≤ upper) ∧
    classify lower lower upper = .Borderline ∧
    classify upper lower upper = .Borderline := by
  refine ⟨?_, ?_, ?_, ?_, ?_, ?_⟩
  · unfold classify; split_ifs <;> simp
  · unfold classify; split_ifs with h1 h2 <;> simp_all
  · unfold classify; split_ifs with h1 h2 <;> simp_all; linarith
  · unfold classify; split_ifs with h1 h2 <;> simp_all
  · unfold classify; rw [if_neg (lt_irrefl lower), if_neg (not_lt.mpr hle)]
  · unfold classify; rw [if_neg (not_lt.mpr hle), if_neg (lt_irrefl upper)]

/-- Witness for C1 at the concrete cutoffs 98 and 100. -/
theorem classify_total_and_boundary_witness :
    classify 98 98 100 = .Borderline ∧ classify 100 98 100 = .Borderline :=
  (classify_total_and_boundary 97 98 100 (by norm_num)).2.2.2.2

/-- C6: the aggregated in-frame flag is true exactly when every record is
in-frame (vacuously true on empty input) and the aggregated stop-codon flag
is true exactly when some record carries a stop codon (vacuously false on
empty input). -/
theorem aggregation_flags_iff (rs : Results) :
    (get_not_inframe_status rs = true ↔ ∀ p ∈ rs, p.2.inframe = true) ∧
    (get_stop_codon_status rs = true ↔ ∃ p ∈ rs, p.2.stopCodon = true) ∧
    get_not_inframe_status [] = true ∧ get_stop_codon_status [] = false :=
  ⟨not_inframe_status_iff rs, stop_codon_status_iff rs, rfl, rfl⟩

/-- C2: on a non-empty identity list with lower ≤ upper, the cohort cascade
returns exactly one of the four outcomes, the three all-quantified
conditions are pairwise exclusive, and a cohort satisfying none of them
lands in the mixed outcome. -/
theorem hypermutation_classification_cases (vs : List ℚ) (lower upper : ℚ)
    (hne : vs ≠ []) (hle : lower ≤ upper) :
    ¬((∀ v ∈ vs, upper < v) ∧ (∀ v ∈ vs, v < lower)) ∧
    ¬((∀ v ∈ vs, upper < v) ∧ (∀ v ∈ vs, lower ≤ v ∧ v ≤ upper)) ∧
    ¬((∀ v ∈ vs, v < lower) ∧ (∀ v ∈ vs, lower ≤ v ∧ v ≤ upper)) ∧
    (hypermutation_classification vs lower upper = .allUnmutated ↔
      ∀ v ∈ vs, upper < v) ∧
    (hypermutation_classification vs lower upper = .allHypermutated ↔
      ∀ v ∈ vs, v < lower) ∧
    (hypermutation_classification vs lower upper = .allBorderline ↔
      ∀ v ∈ vs, lower ≤ v ∧ v ≤ upper) ∧
    (hypermutation_classification vs lower upper = .mixed ↔
      ¬(∀ v ∈ vs, upper < v) ∧ ¬(∀ v ∈ vs, v < lower) ∧
        ¬(∀ v ∈ vs, lower ≤ v ∧ v ≤ upper)) := by
  obtain ⟨x, hx⟩ := List.exists_mem_of_ne_nil vs hne
  have hA : (vs.all fun v => decide (upper < v)) = true ↔
      ∀ v ∈ vs, upper < v := by simp
  have hB : (vs.all fun v => decide (v < lower)) = true ↔
      ∀ v ∈ vs, v < lower := by simp
  have hC : (vs.all fun v => decide (lower ≤ v ∧ v ≤ upper)) = true ↔
      ∀ v ∈ vs, lower ≤ v ∧ v ≤ upper := by simp
  refine ⟨?_, ?_, ?_, ?_, ?_, ?_, ?_⟩
  · rintro ⟨h1, h2⟩
    have := h1 x hx; have := h2 x hx; linarith
  · rintro ⟨h1, h2⟩
    have := h1 x hx; have := (h2 x hx).2; linarith
  · rintro ⟨h1, h2⟩
    have := h1 x hx; have := (h2 x hx).1; linarith
  · unfold hypermutation_classification
    split_ifs with h1 h2 h3 <;> simp_all
  · unfold hypermutation_classification
    split_ifs with h1 h2 h3 <;> simp_all
    exact ⟨x, hx, le_of_lt (lt_of_le_of_lt hle (hA x hx))⟩
  · unfold hypermutation_classification
    split_ifs with h1 h2 h3 <;> simp_all
    · exact ⟨x, hx, fun _ => hA x hx⟩
    · exact ⟨x, hx, fun h => absurd (hB x hx) (not_lt.mpr h)⟩
  · unfold hypermutation_classification
    split_ifs with h1 h2 h3 <;> simp_all

/-- Witness for C2 at one in-band identity value and the cutoffs 98/100. -/
theorem hypermutation_classification_cases_witness :
    hypermutation_classification [99] 98 100 = .allBorderline :=
  ((hypermutation_classification_cases [99] 98 100 (by simp)
      (by norm_num)).2.2.2.2.2.1).mpr
    (by intro v hv; rw [List.mem_singleton] at hv; subst hv;
        constructor <;> norm_num)

/-- Deduplicating a non-empty constant list leaves exactly one element. -/
lemma dedup_of_all_eq {α : Type} [DecidableEq α] (x : α) :
    ∀ l : List α, l ≠ [] → (∀ a ∈ l, a = x) → l.dedup = [x] := by
  intro l
  induction l with
  | nil => intro h _; exact absurd rfl h
  | cons a rest ih =>
    intro _ hall
    rcases eq_or_ne rest [] with h | h
    · subst h
      have hax : a = x := hall a (by simp)
      subst hax
      rw [List.dedup_cons_of_not_mem (List.not_mem_nil a), List.dedup_nil]
    · have hax : a = x := hall a (by simp)
      obtain ⟨b, hb⟩ := List.exists_mem_of_ne_nil rest h
      have hbx : b = x := hall b (List.mem_cons_of_mem a hb)
      have hmem : a ∈ rest := by rw [hax, ← hbx]; exact hb
      rw [List.dedup_cons_of_mem hmem]
      exact ih h fun y hy => hall y (List.mem_cons_of_mem a hy)

/-- C4: the subset resolver returns the no-assignment message and a null
label when no record carries a non-null subset label, the assigned message
with the unique label when exactly one distinct non-null label occurs, and
the conflict message with a null label when two distinct non-null labels
occur. -/
theorem subset_resolver_cases (rs : Results) :
    ((∀ p ∈ rs, p.2.subset = none) →
      get_subset_string rs =
        ("Analysen påvisar ingen subsettillhörighet.", none)) ∧
    (∀ x : String, (∃ p ∈ rs, p.2.subset = some x) →
      (∀ p ∈ rs, p.2.subset = none ∨ p.2.subset = some x) →
      get_subset_string rs =
        ("Vidare påvisas subsettillhörighet till subset " ++ x, some x)) ∧
    (∀ x y : String, x ≠ y → (∃ p ∈ rs, p.2.subset = some x) →
      (∃ p ∈ rs, p.2.subset = some y) →
      get_subset_string rs =
        ("Dessutom visar delmängdsanalysen motsägelsefullt delmängdsmedlemskap med avseende på delmängd #2 eller #8 i det aktuella urvalet. Någon avgörande delmängdstilldelning kan därför inte göras.",
          none)) := by
  refine ⟨?_, ?_, ?_⟩
  · intro h
    have hfm : (rs.filterMap fun p => p.2.subset) = [] :=
      List.filterMap_eq_nil_iff.mpr h
    simp only [get_subset_string, hfm, List.dedup_nil]
  · rintro x ⟨p, hp, hpx⟩ hall
    have hmemx : x ∈ rs.filterMap fun p => p.2.subset :=
      List.mem_filterMap.mpr ⟨p, hp, hpx⟩
    have hne : (rs.filterMap fun p => p.2.subset) ≠ [] := by
      intro h
      rw [h] at hmemx
      exact absurd hmemx (List.not_mem_nil x)
    have hall2 : ∀ a ∈ rs.filterMap fun p => p.2.subset, a = x := by
      intro a ha
      obtain ⟨q, hq, hqa⟩ := List.mem_filterMap.mp ha
      rcases hall q hq with h | h
      · rw [h] at hqa; cases hqa
      · rw [h] at hqa; injection hqa with h2; exact h2.symm
    have hd := dedup_of_all_eq x _ hne hall2
    simp only [get_subset_string, hd]
  · rintro x y hxy ⟨p, hp, hpx⟩ ⟨q, hq, hqy⟩
    have hx : x ∈ (rs.filterMap fun p => p.2.subset).dedup :=
      List.mem_dedup.mpr (List.mem_filterMap.mpr ⟨p, hp, hpx⟩)
    have hy : y ∈ (rs.filterMap fun p => p.2.subset).dedup :=
      List.mem_dedup.mpr (List.mem_filterMap.mpr ⟨q, hq, hqy⟩)
    cases h : (rs.filterMap fun p => p.2.subset).dedup with
    | nil =>
      rw [h] at hx
      exact absurd hx (List.not_mem_nil x)
    | cons a t =>
      cases t with
      | nil =>
        rw [h] at hx hy
        rw [List.mem_singleton] at hx hy
        exact absurd (hx.trans hy.symm) hxy
      | cons b t2 => simp only [get_subset_string, h]

/-- Witness for C4 on the empty cohort. -/
theorem subset_resolver_cases_witness :
    get_subset_string [] = ("Analysen påvisar ingen subsettillhörighet.", none) :=
  (subset_resolver_cases []).1 (by simp)

/-- C5: when result extraction failed (no results document) or no
per-sequence results exist (an empty, falsy results dictionary), the
composer returns null and produces no partial report text. -/
theorem null_summary_when_results_absent (d : SubmissionData) (lower upper : ℚ)
    (h : d.results = none ∨ d.results = some []) :
    generate_report_summary_text d lower upper = .ok none := by
  obtain ⟨res, num⟩ := d
  rcases h with h | h <;>
    · simp only at h
      subst h
      cases num <;> rfl

/-- Witness for C5 on a submission with no results document. -/
theorem null_summary_when_results_absent_witness :
    generate_report_summary_text ⟨none, some 3⟩ 98 100 = .ok none :=
  null_summary_when_results_absent ⟨none, some 3⟩ 98 100 (Or.inl rfl)

/-- C3: when some record is out of frame or some record carries a stop
codon, the composed summary is exactly the boilerplate plus the
count-dependent paragraph — the step-4 block (hypermutation paragraph,
subset paragraph, clinical-guidance sentence, subset prognosis) is entirely
absent. -/
theorem step4_absent_for_nonfunctional (d : SubmissionData) (rs : Results)
    (n : ℕ) (lower upper : ℚ) (hres : d.results = some rs)
    (hnum : d.numSubmitted = some n)
    (hbad : (∃ p ∈ rs, p.2.inframe = false) ∨ (∃ p ∈ rs, p.2.stopCodon = true)) :
    generate_report_summary_text d lower upper =
      (count_paragraph n (get_not_inframe_status rs)
          (get_stop_codon_status rs)).map
        fun para => some (common_comment ++ para) := by
  have hgate : (get_not_inframe_status rs && !get_stop_codon_status rs) = false := by
    rcases hbad with ⟨p, hp, hpf⟩ | ⟨p, hp, hpt⟩
    · have hni : get_not_inframe_status rs ≠ true := fun h => by
        have := (not_inframe_status_iff rs).mp h p hp
        rw [hpf] at this
        cases this
      have h0 : get_not_inframe_status rs = false := Bool.eq_false_iff.mpr hni
      rw [h0, Bool.false_and]
    · have h1 : get_stop_codon_status rs = true :=
        (stop_codon_status_iff rs).mpr ⟨p, hp, hpt⟩
      rw [h1]
      simp
  obtain ⟨res, num⟩ := d
  simp only at hres hnum
  subst hres
  subst hnum
  cases rs with
  | nil =>
    rcases hbad with ⟨p, hp, _⟩ | ⟨p, hp, _⟩ <;> exact absurd hp (List.not_mem_nil p)
  | cons r t =>
    cases hcp : count_paragraph n (get_not_inframe_status (r :: t))
        (get_stop_codon_status (r :: t)) with
    | error e =>
      simp only [generate_report_summary_text, List.isEmpty_cons, hcp, Except.map]
      rfl
    | ok para =>
      simp only [generate_report_summary_text, List.isEmpty_cons, hcp, hgate,
        Except.map]
      rfl

/-- Witness for C3: one out-of-frame sequence yields only the boilerplate
and the non-functional single-sequence paragraph. -/
theorem step4_absent_for_nonfunctional_witness :
    generate_report_summary_text
        ⟨some [("seq1", ⟨false, false, 97, none⟩)], some 1⟩ 98 100 =
      .ok (some (common_comment ++ single_nonfunctional_comment)) := by
  rw [step4_absent_for_nonfunctional
    ⟨some [("seq1", ⟨false, false, 97, none⟩)], some 1⟩
    [("seq1", ⟨false, false, 97, none⟩)] 1 98 100 rfl rfl
    (Or.inl ⟨("seq1", ⟨false, false, 97, none⟩), by simp, rfl⟩)]
  rfl

/-- Decidable equality for `Except`, needed to evaluate report outcomes. -/
instance {ε α : Type} [DecidableEq ε] [DecidableEq α] :
    DecidableEq (Except ε α) := fun a b =>
  match a, b with
  | .error x, .error y =>
    if h : x = y then .isTrue (by rw [h])
    else .isFalse fun hh => h (Except.error.inj hh)
  | .ok x, .ok y =>
    if h : x = y then .isTrue (by rw [h])
    else .isFalse fun hh => h (Except.ok.inj hh)
  | .error _, .ok _ => .isFalse fun hh => Except.noConfusion hh
  | .ok _, .error _ => .isFalse fun hh => Except.noConfusion hh

/-- Counterexample to C7: a submission with a submitted count of zero but a
non-empty, fully in-frame, stop-free results dictionary does not produce
only the boilerplate plus zero-count paragraph — the step-4 hypermutation
and subset text is appended, because the step-4 gate tests only the
in-frame and stop-codon flags. -/
theorem zero_count_step4_counterexample :
    generate_report_summary_text
        ⟨some [("seq1", ⟨true, false, 97, none⟩)], some 0⟩ 98 100 ≠
      .ok (some (common_comment ++ zero_count_comment)) := by
  decide

/-- C7 amended: with results present, a non-empty record set and a
submitted count of zero, the summary is the boilerplate plus the zero-count
paragraph, and the step-4 block is appended exactly when every record is
in-frame and none carries a stop codon; the zero count alone does not
suppress the step-4 block. -/
theorem zero_count_summary_composition (d : SubmissionData) (rs : Results)
    (lower upper : ℚ) (hres : d.results = some rs) (hne : rs ≠ [])
    (hnum : d.numSubmitted = some 0) :
    generate_report_summary_text d lower upper =
      if get_not_inframe_status rs && !get_stop_codon_status rs then
        (step4_append (common_comment ++ zero_count_comment) rs lower upper).map
          some
      else .ok (some (common_comment ++ zero_count_comment)) := by
  obtain ⟨res, num⟩ := d
  simp only at hres hnum
  subst hres
  subst hnum
  cases rs with
  | nil => exact absurd rfl hne
  | cons r t =>
    have hcp : count_paragraph 0 (get_not_inframe_status (r :: t))
        (get_stop_codon_status (r :: t)) = .ok zero_count_comment := rfl
    simp only [generate_report_summary_text, List.isEmpty_cons, hcp]
    by_cases hg : (get_not_inframe_status (r :: t) &&
        !get_stop_codon_status (r :: t)) = true
    · rw [if_pos hg, if_pos hg]
      cases hs : step4_append (common_comment ++ zero_count_comment)
          (r :: t) lower upper <;> simp [hs, Except.map]
    · rw [if_neg hg, if_neg hg]
      simp

/-- Witness for the amended C7: with an out-of-frame record the zero-count
summary is boilerplate only. -/
theorem zero_count_summary_composition_witness :
    generate_report_summary_text
        ⟨some [("seq1", ⟨false, true, 97, none⟩)], some 0⟩ 98 100 =
      .ok (some (common_comment ++ zero_count_comment)) := by
  rw [zero_count_summary_composition
    ⟨some [("seq1", ⟨false, true, 97, none⟩)], some 0⟩
    [("seq1", ⟨false, true, 97, none⟩)] 98 100 rfl (by simp) rfl]
  rfl

/-- The count paragraph for a count above ten always hits the out-of-range
index. -/
lemma count_paragraph_error_of_gt_ten (n : ℕ) (hgt : 10 < n)
    (i s : Bool) : count_paragraph n i s = .error () := by
  have hn0 : n ≠ 0 := by omega
  have hn1 : n ≠ 1 := by omega
  have hget : swedish_number_string.get? n = none := by
    rw [List.get?_eq_none]
    simp only [swedish_number_string, List.length_cons, List.length_nil]
    omega
  unfold count_paragraph
  rw [if_neg hn0, if_neg hn1, hget]

/-- C8: a submission whose submitted-sequence count exceeds ten never
yields a summary string — with non-empty results the composition aborts
with the out-of-range index error of the number-word table, and in every
case it neither reuses the last number word nor omits it, since no
multi-sequence paragraph is produced at all. -/
theorem unsupported_count_no_summary (d : SubmissionData) (rs : Results)
    (n : ℕ) (lower upper : ℚ) (hnum : d.numSubmitted = some n)
    (hgt : 10 < n) :
    (∀ s : String,
      generate_report_summary_text d lower upper ≠ .ok (some s)) ∧
    (d.results = some rs → rs ≠ [] →
      generate_report_summary_text d lower upper = .error ()) := by
  obtain ⟨res, num⟩ := d
  simp only at hnum
  subst hnum
  constructor
  · intro s
    cases res with
    | none => intro h; simp [generate_report_summary_text] at h
    | some rs2 =>
      cases rs2 with
      | nil => intro h; simp [generate_report_summary_text] at h
      | cons r t =>
        intro h
        simp [generate_report_summary_text,
          count_paragraph_error_of_gt_ten n hgt] at h
  · intro hres hne
    simp only at hres
    subst hres
    cases rs with
    | nil => exact absurd rfl hne
    | cons r t =>
      simp [generate_report_summary_text,
        count_paragraph_error_of_gt_ten n hgt]

/-- Witness for C8 at a count of eleven with one record. -/
theorem unsupported_count_no_summary_witness :
    generate_report_summary_text
        ⟨some [("seq1", ⟨true, false, 97, none⟩)], some 11⟩ 98 100 =
      .error () :=
  (unsupported_count_no_summary
    ⟨some [("seq1", ⟨true, false, 97, none⟩)], some 11⟩
    [("seq1", ⟨true, false, 97, none⟩)] 11 98 100 rfl (by norm_num)).2
    rfl (by simp)

/-- A summary row with no junction counterpart makes the row merge fail. -/
lemma merge_rows_none_of_missing {α β : Type} (j : List (String × β)) :
    ∀ s : List (String × α), (∃ q ∈ s, j.lookup q.1 = none) →
      merge_rows j s = none := by
  intro s
  induction s with
  | nil => rintro ⟨q, hq, _⟩; exact absurd hq (List.not_mem_nil q)
  | cons a rest ih =>
    rintro ⟨q, hq, hlk⟩
    rcases List.mem_cons.mp hq with h | h
    · subst h
      simp [merge_rows, hlk]
    · have := ih ⟨q, h, hlk⟩
      cases hla : j.lookup a.1 <;> simp [merge_rows, hla, this]

/-- A successful row merge attaches to every summary row its junction row. -/
lemma merge_rows_mem {α β : Type} (j : List (String × β)) :
    ∀ (s : List (String × α)) (out : List (String × α × β)),
      merge_rows j s = some out →
      ∀ q ∈ s, ∃ jr, j.lookup q.1 = some jr ∧ (q.1, q.2, jr) ∈ out := by
  intro s
  induction s with
  | nil =>
    intro out _ q hq
    exact absurd hq (List.not_mem_nil q)
  | cons a rest ih =>
    intro out hout q hq
    cases hla : j.lookup a.1 with
    | none => rw [merge_rows, hla] at hout; cases hout
    | some jra =>
      cases hmr : merge_rows j rest with
      | none => rw [merge_rows, hla, hmr] at hout; cases hout
      | some l =>
        rw [merge_rows, hla, hmr] at hout
        injection hout with hout
        subst hout
        rcases List.mem_cons.mp hq with h | h
        · subst h
          exact ⟨jra, hla, List.mem_cons_self _ _⟩
        · obtain ⟨jr, hjr, hmem⟩ := ih l hmr q h
          exact ⟨jr, hjr, List.mem_cons_of_mem _ hmem⟩

/-- When every summary row has a junction counterpart the row merge
succeeds. -/
lemma merge_rows_some {α β : Type} (j : List (String × β)) :
    ∀ s : List (String × α), (∀ q ∈ s, ∃ jr, j.lookup q.1 = some jr) →
      ∃ out, merge_rows j s = some out := by
  intro s
  induction s with
  | nil => exact fun _ => ⟨[], rfl⟩
  | cons a rest ih =>
    intro hall
    obtain ⟨jra, hjra⟩ := hall a (List.mem_cons_self a rest)
    obtain ⟨l, hl⟩ := ih fun q hq => hall q (List.mem_cons_of_mem a hq)
    exact ⟨(a.1, a.2, jra) :: l, by rw [merge_rows, hjra, hl]⟩

/-- C9: the merge of summary and junction tables attaches to every summary
sequence id its junction row; a summary id missing from the junction table
makes the whole merge fail with no partial result, and when every id is
present the merge succeeds with the parameters carried unchanged. -/
theorem merge_requires_junction_rows {π α β : Type} (p : π)
    (s : List (String × α)) (j : List (String × β)) :
    ((∃ q ∈ s, j.lookup q.1 = none) →
      create_dict_for_mongo p s j = none) ∧
    (∀ out, create_dict_for_mongo p s j = some out →
      out.1 = p ∧
        ∀ q ∈ s, ∃ jr, j.lookup q.1 = some jr ∧ (q.1, q.2, jr) ∈ out.2) ∧
    ((∀ q ∈ s, ∃ jr, j.lookup q.1 = some jr) →
      ∃ merged, create_dict_for_mongo p s j = some (p, merged)) := by
  refine ⟨?_, ?_, ?_⟩
  · intro h
    rw [create_dict_for_mongo, merge_rows_none_of_missing j s h]
    rfl
  · intro out hout
    cases hmr : merge_rows j s with
    | none => rw [create_dict_for_mongo, hmr] at hout; cases hout
    | some l =>
      rw [create_dict_for_mongo, hmr] at hout
      injection hout with hout
      subst hout
      exact ⟨rfl, merge_rows_mem j s l hmr⟩
  · intro h
    obtain ⟨out, hout⟩ := merge_rows_some j s h
    exact ⟨out, by rw [create_dict_for_mongo, hout]; rfl⟩

/-- Witness for C9 on a one-row summary with a matching junction row. -/
theorem merge_requires_junction_rows_witness :
    ∃ merged, create_dict_for_mongo () [("s1", (1 : ℕ))] [("s1", (2 : ℕ))] =
      some ((), merged) :=
  (merge_requires_junction_rows () [("s1", (1 : ℕ))] [("s1", (2 : ℕ))]).2.2
    (by
      intro q hq
      rw [List.mem_singleton] at hq
      subst hq
      exact ⟨2, rfl⟩)

/-- C10: both the per-sequence mutation status and the cohort hypermutation
classification are decided on the identity value rounded to two decimals —
equal roundings give equal outcomes — and concretely 97.996 with lower
cutoff 98 lies strictly below the cutoff yet rounds to 98.0 and classifies
as Borderline, while the unrounded comparison cascade would classify it as
M-CLL. -/
theorem classification_on_rounded_identity (v₁ v₂ lower upper : ℚ)
    (h : round2 v₁ = round2 v₂) :
    (∀ i₁ i₂ : String,
      (get_mutation_status_per_seq [(i₁, v₁)] lower upper).map Prod.snd =
        (get_mutation_status_per_seq [(i₂, v₂)] lower upper).map Prod.snd) ∧
    (∀ rs₁ rs₂ : Results,
      (rs₁.map fun p => round2 p.2.vIdentity) =
        (rs₂.map fun p => round2 p.2.vIdentity) →
      get_hypermutation_status rs₁ lower upper =
        get_hypermutation_status rs₂ lower upper) ∧
    (Rat.divInt 97996 1000 < 98 ∧ round2 (Rat.divInt 97996 1000) = 98 ∧
      classify (Rat.divInt 97996 1000) 98 100 = .MCLL ∧
      get_mutation_status_per_seq [("seq1", Rat.divInt 97996 1000)] 98 100 =
        [("seq1", .Borderline)] ∧
      get_hypermutation_status
          [("seq1", ⟨true, false, Rat.divInt 97996 1000, none⟩)] 98 100 =
        .allBorderline) := by
  refine ⟨?_, ?_, ?_⟩
  · intro i₁ i₂
    simp [get_mutation_status_per_seq, h]
  · intro rs₁ rs₂ hmap
    unfold get_hypermutation_status
    rw [hmap]
  · exact ⟨by decide, by decide, by decide, by decide, by decide⟩

/-- Witness for C10: 97.996 and 98.0 round alike and classify alike. -/
theorem classification_on_rounded_identity_witness :
    (get_mutation_status_per_seq
        [("a", Rat.divInt 97996 1000)] 98 100).map Prod.snd =
      (get_mutation_status_per_seq [("b", 98)] 98 100).map Prod.snd :=
  (classification_on_rounded_identity (Rat.divInt 97996 1000) 98 98 100
    (by decide)).1 ("a") ("b")

end CllGenie
